import Mathlib

/-!
Shallow embedding of the contact-enrichment flow in `src/hello.py`
(`s16vc/contact_enrichment`).  Python dict/list/str/number/bool/None
values are modelled by `JVal`; fallible Python code is modelled by
`Except String`; side effects (outbound HTTP calls, log prints, CRM
writes) are collected in an explicit trace of `Eff` events.
-/

namespace ContactEnrichment

/-- Model of a Python/JSON value as they occur in this program:
`None`, booleans, integers, strings, lists and dicts.  Numbers are
restricted to integers, which covers every payload this repository
handles. -/
inductive JVal where
  | null : JVal
  | bool : Bool → JVal
  | num : Int → JVal
  | str : String → JVal
  | arr : List JVal → JVal
  | obj : List (String × JVal) → JVal

/-- First-match lookup in an association list (Python dicts have unique
keys, so first match is the only match). -/
def alookup (k : String) : List (String × JVal) → Option JVal
  | [] => none
  | (k', v) :: rest => if k' = k then some v else alookup k rest

/-- Python truthiness for the modelled values. -/
def truthy : JVal → Bool
  | .null => false
  | .bool b => b
  | .num n => n != 0
  | .str s => s != ""
  | .arr xs => !xs.isEmpty
  | .obj kvs => !kvs.isEmpty

mutual

/-- Python `repr` for the modelled values (used only inside log
messages). -/
def pyRepr : JVal → String
  | .null => "None"
  | .bool b => if b then "True" else "False"
  | .num n => toString n
  | .str s => "'" ++ s ++ "'"
  | .arr xs => "[" ++ String.intercalate ", " (pyReprList xs) ++ "]"
  | .obj kvs => "\x7b" ++ String.intercalate ", " (pyReprKvs kvs) ++ "\x7d"

/-- `repr` of each element of a list. -/
def pyReprList : List JVal → List String
  | [] => []
  | x :: xs => pyRepr x :: pyReprList xs

/-- `repr` of each key/value pair of a dict. -/
def pyReprKvs : List (String × JVal) → List String
  | [] => []
  | (k, v) :: kvs => ("'" ++ k ++ "': " ++ pyRepr v) :: pyReprKvs kvs

end

/-- Python `str()` conversion as used in f-string interpolation. -/
def pyStr : JVal → String
  | .str s => s
  | v => pyRepr v

/-- `d.get(key, default)` on a value expected to be a dict; any other
receiver raises `AttributeError` (in particular `None`). -/
def dictGet (v : JVal) (key : String) (dflt : JVal) : Except String JVal :=
  match v with
  | .obj kvs => .ok ((alookup key kvs).getD dflt)
  | .null => .error "AttributeError: 'NoneType' object has no attribute 'get'"
  | _ => .error "AttributeError: object has no attribute 'get'"

/-- `d.get(key)` with no default: missing keys give `None`. -/
def dictGet1 (v : JVal) (key : String) : Except String JVal :=
  dictGet v key .null

/-- Iterating a value expected to be a list; any other value raises
`TypeError`. -/
def asList (v : JVal) : Except String (List JVal) :=
  match v with
  | .arr xs => .ok xs
  | _ => .error "TypeError: object is not iterable"

/-! ## Model of `json.loads`

A recursive-descent JSON parser.  It covers the JSON grammar as this
program exercises it (objects, arrays, strings with the simple escapes,
integer numbers, `true`/`false`/`null`); error messages are simplified
relative to CPython's but a parse succeeds/fails on the same inputs
within that fragment. -/

/-- JSON whitespace. -/
def isJsonWs (c : Char) : Bool := c = ' ' || c = '\t' || c = '\n' || c = '\r'

/-- Skip JSON whitespace. -/
def skipWs (cs : List Char) : List Char := cs.dropWhile isJsonWs

/-- Parse the remainder of a JSON string literal (after the opening
quote), returning the decoded characters and the rest of the input. -/
def parseJStr : List Char → Except String (List Char × List Char)
  | [] => .error "Unterminated string starting at"
  | '"' :: rest => .ok ([], rest)
  | '\\' :: 'u' :: a :: b :: c :: d :: rest =>
      let isHex (x : Char) : Bool :=
        x.isDigit || ('a' ≤ x && x ≤ 'f') || ('A' ≤ x && x ≤ 'F')
      if isHex a && isHex b && isHex c && isHex d then
        let hv (x : Char) : Nat :=
          if x.isDigit then x.toNat - '0'.toNat
          else if 'a' ≤ x ∧ x ≤ 'f' then x.toNat - 'a'.toNat + 10
          else x.toNat - 'A'.toNat + 10
        let code := 4096 * hv a + 256 * hv b + 16 * hv c + hv d
        (parseJStr rest).map fun (s, r) => (Char.ofNat code :: s, r)
      else .error "Invalid \\uXXXX escape"
  | '\\' :: e :: rest =>
      let dec : Option Char :=
        if e = '"' then some '"'
        else if e = '\\' then some '\\'
        else if e = '/' then some '/'
        else if e = 'b' then some '\x08'
        else if e = 'f' then some '\x0c'
        else if e = 'n' then some '\n'
        else if e = 'r' then some '\r'
        else if e = 't' then some '\t'
        else none
      match dec with
      | some c => (parseJStr rest).map fun (s, r) => (c :: s, r)
      | none => .error "Invalid \\escape"
  | c :: rest => (parseJStr rest).map fun (s, r) => (c :: s, r)

/-- Parse a JSON integer literal.  Fractional/exponent literals are
outside this model (the program's payloads contain none) and are
rejected explicitly. -/
def parseJNum (cs : List Char) : Except String (JVal × List Char) :=
  let core : List Char → Except String (Int × List Char) := fun ds =>
    match ds with
    | '0' :: rest => .ok (0, rest)
    | c :: _ =>
        if c.isDigit then
          let digits := ds.takeWhile Char.isDigit
          let rest := ds.dropWhile Char.isDigit
          let v : Int := digits.foldl (fun acc d => 10 * acc + (d.toNat - '0'.toNat : Nat)) 0
          .ok (v, rest)
        else .error "Expecting value"
    | [] => .error "Expecting value"
  match cs with
  | '-' :: rest =>
      match core rest with
      | .ok (v, r) =>
          match r with
          | '.' :: _ => .error "float literal outside model"
          | 'e' :: _ => .error "float literal outside model"
          | 'E' :: _ => .error "float literal outside model"
          | _ => .ok (.num (-v), r)
      | .error e => .error e
  | _ =>
      match core cs with
      | .ok (v, r) =>
          match r with
          | '.' :: _ => .error "float literal outside model"
          | 'e' :: _ => .error "float literal outside model"
          | 'E' :: _ => .error "float literal outside model"
          | _ => .ok (.num v, r)
      | .error e => .error e

mutual

/-- Parse one JSON value (fuel-indexed recursion; `json_loads` supplies
ample fuel). -/
def parseJVal : Nat → List Char → Except String (JVal × List Char)
  | 0, _ => .error "Expecting value"
  | fuel + 1, cs =>
    match skipWs cs with
    | '{' :: rest =>
        (match skipWs rest with
         | '}' :: rest2 => .ok (.obj [], rest2)
         | rest2 =>
            (parseJMembers fuel rest2).map fun (kvs, r) => (.obj kvs, r))
    | '[' :: rest =>
        (match skipWs rest with
         | ']' :: rest2 => .ok (.arr [], rest2)
         | rest2 =>
            (parseJItems fuel rest2).map fun (vs, r) => (.arr vs, r))
    | '"' :: rest => (parseJStr rest).map fun (s, r) => (.str (String.mk s), r)
    | 't' :: 'r' :: 'u' :: 'e' :: rest => .ok (.bool true, rest)
    | 'f' :: 'a' :: 'l' :: 's' :: 'e' :: rest => .ok (.bool false, rest)
    | 'n' :: 'u' :: 'l' :: 'l' :: rest => .ok (.null, rest)
    | cs' => parseJNum cs'

/-- Parse the members of a JSON object (input positioned at the first
key). -/
def parseJMembers : Nat → List Char → Except String (List (String × JVal) × List Char)
  | 0, _ => .error "Expecting value"
  | fuel + 1, cs =>
    match skipWs cs with
    | '"' :: rest =>
        match parseJStr rest with
        | .error e => .error e
        | .ok (k, r1) =>
          match skipWs r1 with
          | ':' :: r2 =>
              (match parseJVal fuel r2 with
               | .error e => .error e
               | .ok (v, r3) =>
                 match skipWs r3 with
                 | ',' :: r4 =>
                     (parseJMembers fuel r4).map fun (kvs, r5) =>
                       ((String.mk k, v) :: kvs, r5)
                 | '}' :: r4 => .ok ([(String.mk k, v)], r4)
                 | _ => .error "Expecting comma delimiter")
          | _ => .error "Expecting colon delimiter"
    | _ => .error "Expecting property name enclosed in double quotes"

/-- Parse the items of a JSON array (input positioned at the first
item). -/
def parseJItems : Nat → List Char → Except String (List JVal × List Char)
  | 0, _ => .error "Expecting value"
  | fuel + 1, cs =>
    match parseJVal fuel cs with
    | .error e => .error e
    | .ok (v, r1) =>
      match skipWs r1 with
      | ',' :: r2 => (parseJItems fuel r2).map fun (vs, r3) => (v :: vs, r3)
      | ']' :: r2 => .ok ([v], r2)
      | _ => .error "Expecting comma delimiter"

end

/-- Model of `json.loads`: parse one value, then require only
whitespace to remain. -/
def json_loads (s : String) : Except String JVal :=
  match parseJVal (s.length + 1) s.data with
  | .error e => .error e
  | .ok (v, rest) => if (skipWs rest).isEmpty then .ok v else .error "Extra data"

/-! ## Model of the fenced-JSON extraction (`extract_json_from_response`)

The source uses `re.search(r"```json\s*\n(.*?)\n```", response, re.DOTALL)`
and the same with a bare ``` ``` `` fence.  The search is modelled
directly: leftmost starting position wins; at a position, the greedy
`\s*` (followed by a mandatory newline) backtracks from the longest
whitespace run, and the lazy `(.*?)` takes the shortest stretch ending
at the next `"\n``` ``"`. -/

/-- Python `\s` whitespace class (ASCII fragment). -/
def isPySpace (c : Char) : Bool :=
  c = ' ' || c = '\t' || c = '\n' || c = '\r' || c = '\x0b' || c = '\x0c'

/-- Python `str.strip()` (ASCII whitespace fragment). -/
def pyStrip (s : String) : String :=
  String.mk (((s.data.dropWhile isPySpace).reverse.dropWhile isPySpace).reverse)

/-- Characters preceding the first occurrence of `"\n``` ``"`, if any:
the lazy group of the fence regex. -/
def splitAtCloseFence : List Char → Option (List Char)
  | [] => none
  | c :: rest =>
      if List.isPrefixOf ['\n', '`', '`', '`'] (c :: rest) then some []
      else (splitAtCloseFence rest).map (c :: ·)

/-- Match `\s*\n(.*?)\n``` ` at the current position (input is what
follows the opening fence literal): greedy `\s*` with backtracking,
then the lazy group. -/
def fenceBody (rest : List Char) : Option (List Char) :=
  let w := (rest.takeWhile isPySpace).length
  let ks := (List.range w).filter fun k => rest.getD k ' ' = '\n'
  ks.reverse.findSome? fun k => splitAtCloseFence (rest.drop (k + 1))

/-- `re.search` for ``tag ++ \s*\n(.*?)\n``` `` : try each start
position left to right, returning the group of the first position that
matches. -/
def searchFenceTag (tag : List Char) : List Char → Option (List Char)
  | [] => none
  | c :: rest =>
      match (if List.isPrefixOf tag (c :: rest)
             then fenceBody ((c :: rest).drop tag.length) else none) with
      | some body => some body
      | none => searchFenceTag tag rest

/-- The string handed to `json.loads`: group of the ```` ```json ````
fence if present, else group of the bare ```` ``` ```` fence, else the
whole stripped response. -/
def selectJsonCandidate (response : String) : String :=
  match searchFenceTag "```json".data response.data with
  | some body => String.mk body
  | none =>
    match searchFenceTag "```".data response.data with
    | some body => String.mk body
    | none => pyStrip response

/-- `extract_json_from_response` (src/hello.py:475-507): pick the
candidate string by the three strategies, parse it, and on a parse
failure raise `ValueError` carrying the raw response. -/
def extract_json_from_response (response : String) : Except String JVal :=
  match json_loads (selectJsonCandidate response) with
  | .ok v => .ok v
  | .error e =>
      .error ("Failed to parse JSON from response: " ++ e
                ++ "\nResponse: " ++ response)

/-! ## Model of `datetime.strptime(s, "%Y-%m-%d %H:%M:%S")` and the
7-day recency window

`%Y` matches exactly four digits; `%m`/`%d`/`%H`/`%M`/`%S` match one or
two digits within their CPython `_strptime` character classes; the full
input must be consumed; the day is then validated against the month
(CPython constructs a `datetime.date`).  A datetime is compared
chronologically, modelled by its second count on the proleptic
Gregorian calendar. -/

/-- A parsed naive datetime. -/
structure PyDateTime where
  year : Nat
  month : Nat
  day : Nat
  hour : Nat
  minute : Nat
  second : Nat

/-- Gregorian leap year. -/
def isLeapYear (y : Nat) : Bool := (y % 4 = 0 && y % 100 ≠ 0) || y % 400 = 0

/-- Length of a month. -/
def daysInMonth (y m : Nat) : Nat :=
  if m = 2 then (if isLeapYear y then 29 else 28)
  else if m = 4 || m = 6 || m = 9 || m = 11 then 30
  else 31

/-- Days since 1970-01-01 of a civil date (standard civil-calendar
conversion; all intermediate values are nonnegative for years ≥ 1). -/
def civilDays (y m d : Nat) : Int :=
  let y' : Int := (y : Int) - (if m ≤ 2 then 1 else 0)
  let era : Int := y' / 400
  let yoe : Int := y' - era * 400
  let mp : Int := ((m : Int) + 9) % 12
  let doy : Int := (153 * mp + 2) / 5 + (d : Int) - 1
  let doe : Int := yoe * 365 + yoe / 4 - yoe / 100 + doy
  era * 146097 + doe - 719468

/-- Chronological position of a datetime, in seconds. -/
def PyDateTime.toSecs (dt : PyDateTime) : Int :=
  civilDays dt.year dt.month dt.day * 86400
    + dt.hour * 3600 + dt.minute * 60 + dt.second

/-- Numeric value of a digit character. -/
def digitVal (c : Char) : Nat := c.toNat - '0'.toNat

/-- Match a one-or-two digit field the way the CPython `_strptime`
character classes do: a two-digit run whose value lies in
`[lo2, hi2]`, else one digit with value ≥ `lo1` (when a two-digit
alternative fails and the regex backtracks to one digit, the following
literal — a non-digit — fails against the second digit anyway, so
committing is equivalent). -/
def parseField (lo2 hi2 lo1 : Nat) : List Char → Option (Nat × List Char)
  | c1 :: c2 :: rest =>
      if c1.isDigit && c2.isDigit then
        let v := 10 * digitVal c1 + digitVal c2
        if lo2 ≤ v ∧ v ≤ hi2 then some (v, rest)
        else if lo1 ≤ digitVal c1 then some (digitVal c1, c2 :: rest)
        else none
      else if c1.isDigit && lo1 ≤ digitVal c1 then some (digitVal c1, c2 :: rest)
      else none
  | [c1] => if c1.isDigit && lo1 ≤ digitVal c1 then some (digitVal c1, []) else none
  | [] => none

/-- `datetime.strptime(s, "%Y-%m-%d %H:%M:%S")`. -/
def strptimeYmdHms (s : String) : Except String PyDateTime :=
  let noMatch : Except String PyDateTime :=
    .error ("time data '" ++ s ++ "' does not match format '%Y-%m-%d %H:%M:%S'")
  match s.data with
  | y1 :: y2 :: y3 :: y4 :: '-' :: rest =>
      if y1.isDigit && y2.isDigit && y3.isDigit && y4.isDigit then
        let year := 1000 * digitVal y1 + 100 * digitVal y2
                      + 10 * digitVal y3 + digitVal y4
        match parseField 1 12 1 rest with
        | some (month, r1) =>
          match r1 with
          | '-' :: r2 =>
            match parseField 1 31 1 r2 with
            | some (day, r3) =>
              match r3 with
              | ' ' :: r4 =>
                match parseField 0 23 0 r4 with
                | some (hour, r5) =>
                  match r5 with
                  | ':' :: r6 =>
                    match parseField 0 59 0 r6 with
                    | some (minute, r7) =>
                      match r7 with
                      | ':' :: r8 =>
                        match parseField 0 59 0 r8 with
                        | some (second, r9) =>
                          if r9.isEmpty then
                            if year = 0 then
                              .error "year 0 is out of range"
                            else if day > daysInMonth year month then
                              .error "day is out of range for month"
                            else
                              .ok ⟨year, month, day, hour, minute, second⟩
                          else .error ("unconverted data remains: "
                                        ++ String.mk r9)
                        | none => noMatch
                      | _ => noMatch
                    | none => noMatch
                  | _ => noMatch
                | none => noMatch
              | _ => noMatch
            | none => noMatch
          | _ => noMatch
        | none => noMatch
      else noMatch
  | _ => noMatch

/-- Seconds in the 7-day window of `timedelta(days=7)`. -/
def weekSeconds : Int := 7 * 86400

/-- The list comprehension at src/hello.py:608-613: for each item, read
`item.get("posted")`; drop the item when that is falsy; otherwise parse
it with `strptime` (raising on a malformed value) and keep the item
when the parsed time is ≥ `now − 7 days`, projecting kept items to
`{"article_title": ..., "text": ...}`.  `nowSecs` is the chronological
position of `datetime.now()`. -/
def recentPostsOf : List JVal → Int → Except String (List JVal)
  | [], _ => .ok []
  | item :: rest, nowSecs => do
    let posted ← dictGet1 item "posted"
    if truthy posted then
      match posted with
      | .str s => do
        let dt ← strptimeYmdHms s
        if dt.toSecs ≥ nowSecs - weekSeconds then do
          let t ← dictGet1 item "article_title"
          let x ← dictGet1 item "text"
          let tail ← recentPostsOf rest nowSecs
          pure (.obj [("article_title", t), ("text", x)] :: tail)
        else recentPostsOf rest nowSecs
      | _ => .error "TypeError: strptime() argument 1 must be str"
    else recentPostsOf rest nowSecs

/-- Written from the spec's words for the Recency Filter (spec §4.4 and
claim C2), to be compared with `recentPostsOf`: keep exactly the items
whose `posted` field is present and truthy and parses to a time at
least `now − 7 days`. -/
def specRecencyKeep (nowSecs : Int) (item : JVal) : Bool :=
  match item with
  | .obj kvs =>
      match alookup "posted" kvs with
      | some (.str s) =>
          s != "" &&
            (match strptimeYmdHms s with
             | .ok dt => decide (dt.toSecs ≥ nowSecs - weekSeconds)
             | .error _ => false)
      | _ => false
  | _ => false

/-- Written from the spec's words (claim C2): the two-field projection
of a kept item. -/
def specProject (item : JVal) : JVal :=
  match item with
  | .obj kvs =>
      .obj [("article_title", (alookup "article_title" kvs).getD .null),
            ("text", (alookup "text" kvs).getD .null)]
  | _ => .obj []

/-- Written from the spec's words (claim C2): the Recency Filter as a
pure filter-then-project over the input list, preserving input order. -/
def specRecencyFilter (posts : List JVal) (nowSecs : Int) : List JVal :=
  (posts.filter (specRecencyKeep nowSecs)).map specProject

/-! ## Effects and the effectful steps of the program

Outbound calls, log prints and CRM writes are collected in a trace.
External responses (HTTP bodies, LLM completions) are supplied as
parameters, standing for whatever the external world returns. -/

/-- One observable event of a run. -/
inductive Eff where
  | log (msg : String)
  | httpGetProfile (url : String)
  | httpGetPosts (url : String)
  | llmChat (userPrompt : String)
  | airtableClient (apiKey : String)
  | airtableUpdate (recordId : String) (field : String) (value : String)
  deriving DecidableEq, Repr

/-- An event is an outbound call (anything but a local log print). -/
def isOutboundEff : Eff → Bool
  | .log _ => false
  | _ => true

/-- Sequencing of trace-producing fallible steps: an error stops the
run, keeping the events already emitted. -/
def estep {α β : Type} (x : List Eff × Except String α)
    (f : α → List Eff × Except String β) : List Eff × Except String β :=
  match x with
  | (t, .error e) => (t, .error e)
  | (t, .ok a) => let y := f a; (t ++ y.1, y.2)

/-- f-string rendering of an `Optional[str]` credential. -/
def optStr : Option String → String
  | none => "None"
  | some s => s

/-- JSON string escaping for `json.dumps` (ASCII fragment used by this
program's prompts). -/
def jsonEscapeChar (c : Char) : String :=
  if c = '"' then "\\\""
  else if c = '\\' then "\\\\"
  else if c = '\n' then "\\n"
  else if c = '\t' then "\\t"
  else if c = '\r' then "\\r"
  else String.singleton c

mutual

/-- Model of `json.dumps` with the default separators, as used to
embed the old/current profile summaries in the comparison prompt. -/
def pyJsonDumps : JVal → String
  | .null => "null"
  | .bool b => if b then "true" else "false"
  | .num n => toString n
  | .str s => "\"" ++ String.join (s.data.map jsonEscapeChar) ++ "\""
  | .arr xs => "[" ++ String.intercalate ", " (dumpsList xs) ++ "]"
  | .obj kvs => "\x7b" ++ String.intercalate ", " (dumpsKvs kvs) ++ "\x7d"

/-- `json.dumps` of each element of a list. -/
def dumpsList : List JVal → List String
  | [] => []
  | x :: xs => pyJsonDumps x :: dumpsList xs

/-- `json.dumps` of each key/value pair of a dict. -/
def dumpsKvs : List (String × JVal) → List String
  | [] => []
  | (k, v) :: kvs => ("\"" ++ k ++ "\": " ++ pyJsonDumps v) :: dumpsKvs kvs

end

/-- Byte kept verbatim by `urllib.parse.quote(s, safe=":/?&=")`:
the always-safe set (letters, digits, `_.-~`) plus the call's `safe`
characters. -/
def quoteSafeByte (b : Nat) : Bool :=
  (65 ≤ b && b ≤ 90) || (97 ≤ b && b ≤ 122) || (48 ≤ b && b ≤ 57) ||
  b = 95 || b = 46 || b = 45 || b = 126 ||
  b = 58 || b = 47 || b = 63 || b = 38 || b = 61

/-- Upper-case hex digit. -/
def hexDigitUpper (n : Nat) : Char :=
  if n < 10 then Char.ofNat ('0'.toNat + n) else Char.ofNat ('A'.toNat + n - 10)

/-- The UTF-8 bytes of one character. -/
def utf8Bytes (c : Char) : List Nat :=
  let n := c.toNat
  if n < 128 then [n]
  else if n < 2048 then [192 + n / 64, 128 + n % 64]
  else if n < 65536 then [224 + n / 4096, 128 + (n / 64) % 64, 128 + n % 64]
  else [240 + n / 262144, 128 + (n / 4096) % 64, 128 + (n / 64) % 64, 128 + n % 64]

/-- Model of `urllib.parse.quote(linkedin_url, safe=":/?&=")`:
percent-encode every UTF-8 byte outside the safe set. -/
def pyQuote (s : String) : String :=
  String.mk ((s.data.flatMap utf8Bytes).foldr
    (fun b acc =>
      if quoteSafeByte b then Char.ofNat b :: acc
      else '%' :: hexDigitUpper (b / 16) :: hexDigitUpper (b % 16) :: acc)
    [])

/-- `lst[i]` with Python's `IndexError`. -/
def listItem (vs : List JVal) (i : Nat) : Except String JVal :=
  match vs.get? i with
  | some v => .ok v
  | none => .error "IndexError: list index out of range"

/-- `d[key]` with Python's `KeyError`. -/
def dictItem (v : JVal) (key : String) : Except String JVal :=
  match v with
  | .obj kvs =>
      match alookup key kvs with
      | some x => .ok x
      | none => .error ("KeyError: '" ++ key ++ "'")
  | _ => .error "TypeError: value is not subscriptable"

/-- The fixed system prompt of `prompt_profil_comparison`
(src/hello.py:441-458). -/
def comparisonSystemPrompt : String :=
  "\n    You are an expert in LinkedIn profile analysis. Your task is to analyse an old profile and a new profile \n    and tell if the profile needs to be updated in light of the new information.\n    We do not care about subtle differences, we care about key changes:\n    - new position\n    - new company\n\n    You will be provided with the old profile and the new profile. Furthermore, you will be provided with recent posts. \n    Those are less important but still hold interesting information that can help.\n\n    You will respond in JSON format.\n    Here is the format of the response\n\n    \x7b\n    \"toUpdate\": <true/false>,\n    \"reason\": <reason>\n    \x7d\n    "

/-- `prompt_profil_comparison` (src/hello.py:416-472): project the old
profile from the trigger fields and the current profile from the
fetched data (with defensive defaults), and build the two chat
messages. -/
def prompt_profil_comparison (data profil_data : JVal)
    (profil_posts : List JVal) : Except String (List JVal) := do
  let fieldsV ← dictGet data "fields" (.obj [])
  let nameV ← dictGet fieldsV "Name" (.str "")
  let descV ← dictGet fieldsV "Description" (.str "")
  let compV ← dictGet fieldsV "Companies" (.arr [])
  let titleV ← dictGet fieldsV "Title" (.str "")
  let old_profil : JVal :=
    .obj [("name", nameV), ("desc", descV), ("company", compV), ("title", titleV)]
  let profile_dataV ← dictGet profil_data "data" (.obj [])
  let cnameV ← dictGet profile_dataV "full_name" (.str "")
  let cdescV ← dictGet profile_dataV "about" (.str "")
  let ccompV ← dictGet profile_dataV "company" (.str "")
  let ctitleV ← dictGet profile_dataV "headline" (.str "")
  let current_profil : JVal :=
    .obj [("name", cnameV), ("desc", cdescV), ("company", ccompV),
          ("title", ctitleV), ("recentPosts", .arr profil_posts)]
  let user_prompt :=
    "\n    Old profile: " ++ pyJsonDumps old_profil
      ++ "\n    Current profile: " ++ pyJsonDumps current_profil ++ "\n    "
  pure [.obj [("role", .str "system"), ("content", .str comparisonSystemPrompt)],
        .obj [("role", .str "user"), ("content", .str user_prompt)]]

/-- `generate_text` (src/hello.py:16-65): raises eagerly when the
OpenRouter credential is absent, otherwise performs one chat-completion
call; the completion text is supplied by `llmResponse`. -/
def generate_text (userPrompt : String) (systemPrompt : Option String)
    (openrouterApiKey : Option String) (llmResponse : String) :
    List Eff × Except String String :=
  let _ := systemPrompt
  if openrouterApiKey.getD "" = "" then
    ([], .error "OPENROUTER_API_KEY environment variable is not set")
  else
    ([.llmChat userPrompt], .ok llmResponse)

/-- `does_profile_need_update` (src/hello.py:510-531): read the two
message contents, run the LLM, extract the JSON verdict, and return
`parsed_result.get("toUpdate")` (which is `None` when the key is
absent). -/
def does_profile_need_update (prompts : List JVal)
    (openrouterApiKey : Option String) (llmResponse : String) :
    List Eff × Except String JVal :=
  estep ([], (do
      let m0 ← listItem prompts 0
      let sp ← dictItem m0 "content"
      let m1 ← listItem prompts 1
      let up ← dictItem m1 "content"
      pure (sp, up))) fun spup =>
  estep (generate_text (pyStr spup.2) (some (pyStr spup.1))
          openrouterApiKey llmResponse) fun result =>
  estep ([], extract_json_from_response result) fun parsed =>
  estep ([.log ("Parsed comparison result: " ++ pyRepr parsed)],
         dictGet1 parsed "toUpdate") fun v =>
  ([], .ok v)

/-- The fixed Airtable base id (src/hello.py:549). -/
def airtable_base_id : String := "app18YWzPlAFs2umJ"

/-- The fixed Airtable table id (src/hello.py:550). -/
def airtable_table_name : String := "tblIkmDFlC91L9EHi"

/-- `update_at_record` (src/hello.py:534-571): no-op on a falsy record
id; raise when the credential is missing (this check precedes the
client construction); otherwise construct the client and write the
single `Description` field. -/
def update_at_record (record_id : JVal) (description : String)
    (airtableApiKey : Option String) : List Eff × Except String Unit :=
  if ¬ truthy record_id then
    ([.log "No record_id provided, skipping Airtable update"], .ok ())
  else
    let keyLog := "api_key: " ++ optStr airtableApiKey ++ ", base_id: "
                    ++ airtable_base_id ++ ", table_name: " ++ airtable_table_name
    if airtableApiKey.getD "" = "" then
      ([.log keyLog],
       .error ("Missing Airtable configuration. Please set AIRTABLE_API_KEY, "
                ++ "AIRTABLE_BASE_ID, and AIRTABLE_TABLE_NAME in your .env file"))
    else
      let key := airtableApiKey.getD ""
      ([.log keyLog, .airtableClient key,
        .airtableUpdate (pyStr record_id) "Description" description,
        .log ("Successfully updated Airtable record " ++ pyStr record_id)],
       .ok ())

/-- The fixed system prompt of the description-generation call
(src/hello.py:622-634). -/
def genSystemPrompt : String :=
  "\nGoal: Create a concise, systematic, and readable profile of a CRM contact. Include professional, personal, and ecosystem-related information. Format in short bullet points or mini-paragraphs that are easy to scan.\n\nPrompt:\nFocus on key professional roles, skills, and accomplishments.\nInclude company, position, experience, and expertise areas.\nMention projects, startups founded, GitHub/portfolio links, or notable work.\nInclude personal interests, hobbies, or travel, if relevant.\nInclude industry ecosystem insights (accelerators, investors, communities) if the contact is active in it.\nKeep each bullet or line simple, clear, and informative.\nAvoid fluff, exaggeration, or irrelevant details.\n*Do not add section titles just the content*\n"

/-- One work-experience entry of the history block
(src/hello.py:647-653): company / title / date range / description,
each on its own 12-space-indented line. -/
def fmtExperience (exp : JVal) : Except String String := do
  let c ← dictGet exp "company" (.str "")
  let t ← dictGet exp "title" (.str "")
  let d ← dictGet exp "date_range" (.str "")
  let ds ← dictGet exp "description" (.str "")
  pure (pyStr c ++ "\n            " ++ pyStr t ++ "\n            "
         ++ pyStr d ++ "\n            " ++ pyStr ds ++ "\n            ")

/-- The list comprehension over the experience entries: format each in
order, propagating a raise. -/
def fmtExperiences : List JVal → Except String (List String)
  | [] => .ok []
  | exp :: rest => do
      let p ← fmtExperience exp
      let ps ← fmtExperiences rest
      pure (p :: ps)

/-- `"".join(...)` over the formatted experience entries. -/
def historyOf (exps : List JVal) : Except String String := do
  let pieces ← fmtExperiences exps
  pure (String.join pieces)

/-- The environment credentials the flow reads. -/
structure FlowEnv where
  openrouterApiKey : Option String
  airtableApiKey : Option String

/-- The external world of one run: the two HTTP response bodies, the
two LLM completions, and the clock. -/
structure FlowWorld where
  profileResp : JVal
  postsResp : JVal
  compareResp : String
  genResp : String
  nowSecs : Int

/-- `contact_enrichment` (src/hello.py:574-669): the linear flow.
`data` is the trigger payload (`JVal.null` models a missing payload). -/
def contact_enrichment (data : JVal) (env : FlowEnv) (w : FlowWorld) :
    List Eff × Except String Unit :=
  let _data := if truthy data then data else .obj []
  estep ([.log ("data: " ++ pyRepr _data)], dictGet _data "fields" (.obj [])) fun fields =>
  estep ([], dictGet fields "LinkedIn" (.str "")) fun linkedin =>
  if ¬ truthy linkedin then
    ([.log "No LinkedIn URL provided, cannot enrich contact"], .ok ())
  else
  estep ([], (match linkedin with
              | .str s => .ok (pyQuote s)
              | _ => .error "TypeError: quote() expected a string")) fun profil_url =>
  estep ([.log profil_url, .httpGetProfile profil_url], .ok w.profileResp) fun profil_data =>
  estep ([.httpGetPosts profil_url], .ok w.postsResp) fun profil_posts =>
  estep ([], dictGet1 profil_posts "data") fun pd =>
  estep ([], asList (if truthy pd then pd else .arr [])) fun posts_data =>
  estep ([], recentPostsOf posts_data w.nowSecs) fun recent_posts =>
  estep ([], prompt_profil_comparison data profil_data recent_posts) fun prompts =>
  estep (does_profile_need_update prompts env.openrouterApiKey w.compareResp) fun needs_update =>
  estep ([.log ("needs_update: " ++ pyStr needs_update)], .ok ()) fun _ =>
  if truthy needs_update then
    estep ([], (dictGet1 profil_data "data") >>= fun d => dictGet1 d "about") fun about =>
    estep (generate_text ("Here is the description: " ++ pyStr about)
            (some genSystemPrompt) env.openrouterApiKey w.genResp) fun gen_description =>
    estep ([.log ("Generated Description: " ++ gen_description)], .ok ()) fun _ =>
    estep ([], dictGet profil_data "data" (.obj [])) fun profile_data =>
    estep ([], dictGet profile_data "experiences" (.arr [])) fun experiencesV =>
    estep ([], if truthy experiencesV then asList experiencesV >>= historyOf
               else .ok "") fun history =>
    let formatted_description :=
      "\n        " ++ gen_description ++ "\n\n        " ++ history ++ "\n        "
    estep ([.log formatted_description], dictGet _data "id" (.str "")) fun record_id =>
    if truthy record_id then
      update_at_record record_id formatted_description env.airtableApiKey
    else
      ([.log "No record ID provided, skipping Airtable update"], .ok ())
  else ([], .ok ())

/-! ## Model of the Prefect task retry engine (claim C5) -/

/-- One event of a retried task execution. -/
inductive RetryEv where
  | attemptRun (i : Nat)
  | sleepSecs (n : Nat)
  deriving DecidableEq, Repr

/-- Loop of `runTaskWithRetries`: run attempt `i`; on failure, if
retries remain, sleep and go again, else propagate the error. -/
def runRetryLoop (delaySeconds : Nat) (attempt : Nat → Except String Unit) :
    Nat → Nat → List RetryEv × Except String Unit
  | left, i =>
    match attempt i with
    | .ok () => ([.attemptRun i], .ok ())
    | .error e =>
      match left with
      | 0 => ([.attemptRun i], .error e)
      | left' + 1 =>
        let rest := runRetryLoop delaySeconds attempt left' (i + 1)
        (.attemptRun i :: .sleepSecs delaySeconds :: rest.1, rest.2)

/-- Modelled from the spec: the Prefect retry engine is not part of
this repository — src/hello.py only carries the decorator parameters
`retries=…, retry_delay_seconds=…`.  Per spec §4.1, a task makes up to
`retries` additional attempts after the first, with a fixed
`delaySeconds` sleep between consecutive attempts, uniformly for every
failure cause, and a still-failing task propagates its last error. -/
def runTaskWithRetries (retries delaySeconds : Nat)
    (attempt : Nat → Except String Unit) : List RetryEv × Except String Unit :=
  runRetryLoop delaySeconds attempt retries 0

/-- `@task(name="Linkedin Profile", retries=2, retry_delay_seconds=300)`
(src/hello.py:97). -/
def get_linkedin_profil_retries : Nat := 2

/-- Retry delay of the profile fetcher (src/hello.py:97). -/
def get_linkedin_profil_retry_delay_seconds : Nat := 300

/-- `@task(name="Linkedin Posts", retries=2, retry_delay_seconds=300)`
(src/hello.py:174). -/
def get_linkedin_posts_retries : Nat := 2

/-- Retry delay of the posts fetcher (src/hello.py:174). -/
def get_linkedin_posts_retry_delay_seconds : Nat := 300

/-! ## Trace predicates and shared scenario inputs -/

/-- The event is an LLM chat-completion call. -/
def isLlmEff : Eff → Bool
  | .llmChat _ => true
  | _ => false

/-- The event is the CRM record write. -/
def isUpdateEff : Eff → Bool
  | .airtableUpdate _ _ _ => true
  | _ => false

/-- The record id, field and text of a CRM write event. -/
def updateEvent? : Eff → Option (String × String × String)
  | .airtableUpdate r f v => some (r, f, v)
  | _ => none

/-- The trigger payload lacks a usable LinkedIn URL: the payload is
missing, or its `fields` map is missing, or the map has no `LinkedIn`
key, or maps it to a falsy value. -/
def payloadLacksLinkedin (data : JVal) : Prop :=
  data = .null ∨
    ∃ kvs, data = .obj kvs ∧
      (alookup "fields" kvs = none ∨
        ∃ fkvs, alookup "fields" kvs = some (.obj fkvs) ∧
          (alookup "LinkedIn" fkvs = none ∨
            ∃ v, alookup "LinkedIn" fkvs = some v ∧ truthy v = false))

/-- Credentials present, as in a correctly configured deployment. -/
def scenarioEnv : FlowEnv := ⟨some "ork", some "atk"⟩

/-- A fetched profile whose headline differs from the trigger's title
(spec §8, scenario B); it has no `experiences` key. -/
def scenarioProfile : JVal :=
  .obj [("data", .obj [("about", .str "About me"), ("headline", .str "New role")]),
        ("message", .str "ok")]

/-- A posts response with no posts. -/
def scenarioPosts : JVal := .obj [("data", .arr [])]

/-- A trigger payload with a LinkedIn URL and a record id. -/
def scenarioPayload : JVal :=
  .obj [("id", .str "rec1"),
        ("fields", .obj [("LinkedIn", .str "https://www.linkedin.com/in/ab/"),
                         ("Title", .str "Old")])]

/-- A change-detector response that asks for an update. -/
def toUpdateTrueResp : String :=
  "\x7b\"toUpdate\": true, \"reason\": \"new role\"\x7d"

/-- A work-experience entry as the enrichment API returns it. -/
def mkExperience (c t d ds : String) : JVal :=
  .obj [("company", .str c), ("title", .str t),
        ("date_range", .str d), ("description", .str ds)]

/-- The formatted text of one experience entry. -/
def expPiece (e : String × String × String × String) : String :=
  e.1 ++ "\n            " ++ e.2.1 ++ "\n            "
    ++ e.2.2.1 ++ "\n            " ++ e.2.2.2 ++ "\n            "

/-- The formatted experience block of a list of entries. -/
def expBlock (exps : List (String × String × String × String)) : String :=
  String.join (exps.map expPiece)

/-- A clock fixed at 2024-06-14 12:00:00 for the boundary scenario of
the Recency Filter. -/
def boundaryNow : Int := PyDateTime.toSecs ⟨2024, 6, 14, 12, 0, 0⟩

/-- Posts aged 6, 7 and 8 days relative to `boundaryNow`, one post
without a `posted` key and one with an empty `posted`. -/
def boundaryPosts : List JVal :=
  [.obj [("posted", .str "2024-06-08 12:00:00"), ("text", .str "6d")],
   .obj [("posted", .str "2024-06-07 12:00:00"), ("article_title", .str "T"),
         ("text", .str "7d")],
   .obj [("posted", .str "2024-06-06 12:00:00"), ("text", .str "8d")],
   .obj [("text", .str "no posted")],
   .obj [("posted", .str ""), ("text", .str "empty posted")]]

end ContactEnrichment

namespace ContactEnrichment

/-! ## Claim theorems -/

/-- Reduction of a successful `Except` bind. -/
theorem except_bind_ok {α β : Type} (a : α) (f : α → Except String β) :
    (Except.ok a : Except String α) >>= f = f a := rfl

/-- Reduction of a failed `Except` bind. -/
theorem except_bind_error {α β : Type} (e : String) (f : α → Except String β) :
    (Except.error e : Except String α) >>= f = Except.error e := rfl

/-- Reduction of `pure` on `Except`. -/
theorem except_pure_eq {α : Type} (a : α) :
    (pure a : Except String α) = Except.ok a := rfl

/-- Claim C3: the JSON extractor tries a ```json fenced block, then a
bare fenced block, then the whole stripped response, the first match
winning: the same object is returned for the same underlying JSON in
each of the three forms, a response holding both kinds of fence yields
the ```json one, and an unparseable selection raises a parse error
whose message carries the raw response. -/
theorem extract_json_three_strategies :
    extract_json_from_response
        "```json\n\x7b\"toUpdate\": true, \"reason\": \"new title\"\x7d\n```"
      = .ok (.obj [("toUpdate", .bool true), ("reason", .str "new title")])
  ∧ extract_json_from_response
        "```\n\x7b\"toUpdate\": true, \"reason\": \"new title\"\x7d\n```"
      = .ok (.obj [("toUpdate", .bool true), ("reason", .str "new title")])
  ∧ extract_json_from_response
        "\x7b\"toUpdate\": true, \"reason\": \"new title\"\x7d"
      = .ok (.obj [("toUpdate", .bool true), ("reason", .str "new title")])
  ∧ extract_json_from_response
        "x\n```json\n\x7b\"a\": 1\x7d\n```\ny\n```\n\x7b\"b\": 2\x7d\n```"
      = .ok (.obj [("a", .num 1)])
  ∧ extract_json_from_response "not json at all"
      = .error "Failed to parse JSON from response: Expecting value\nResponse: not json at all" :=
  ⟨rfl, rfl, rfl, rfl, rfl⟩

/-- Claim C5: each fetcher task declares 2 retries with a fixed
300-second delay; with an always-failing transport the error of the
last attempt propagates after the 2 configured retries are exhausted
(three attempts, two 300-second sleeps), uniformly in the failure
cause, and a transport failing once then succeeding recovers after one
retry. -/
theorem fetcher_retry_policy :
    (∀ err : Nat → String,
        runTaskWithRetries get_linkedin_profil_retries
            get_linkedin_profil_retry_delay_seconds (fun i => .error (err i))
          = ([.attemptRun 0, .sleepSecs 300, .attemptRun 1, .sleepSecs 300,
              .attemptRun 2], .error (err 2)))
  ∧ (∀ (e : String) (attempt : Nat → Except String Unit),
        attempt 0 = .error e → attempt 1 = .ok () →
        runTaskWithRetries get_linkedin_posts_retries
            get_linkedin_posts_retry_delay_seconds attempt
          = ([.attemptRun 0, .sleepSecs 300, .attemptRun 1], .ok ())) := by
  constructor
  · intro err
    rfl
  · intro e attempt h0 h1
    simp [runTaskWithRetries, runRetryLoop, h0, h1,
          get_linkedin_posts_retries, get_linkedin_posts_retry_delay_seconds]

/-- Witness for C5 at a concrete fault-injected transport that fails
once and then succeeds. -/
theorem fetcher_retry_policy_witness :
    runTaskWithRetries get_linkedin_posts_retries
        get_linkedin_posts_retry_delay_seconds
        (fun i => if i = 0 then .error "boom" else .ok ())
      = ([.attemptRun 0, .sleepSecs 300, .attemptRun 1], .ok ()) :=
  fetcher_retry_policy.2 "boom" _ rfl rfl

/-- Claim C6: with a falsy record id (empty string or `None`) the
Record Updater only logs and returns, performing no outbound call,
regardless of the description. -/
theorem update_noop_on_falsy_record_id (rid : JVal) (desc : String)
    (key : Option String) (h : truthy rid = false) :
    update_at_record rid desc key
      = ([.log "No record_id provided, skipping Airtable update"], .ok ()) := by
  unfold update_at_record
  simp [h]

/-- Witness for C6 at the empty-string record id. -/
theorem update_noop_on_falsy_record_id_witness :
    truthy (JVal.str "") = false ∧
    update_at_record (.str "") "any description" (some "key")
      = ([.log "No record_id provided, skipping Airtable update"], .ok ()) :=
  ⟨rfl, update_noop_on_falsy_record_id _ _ _ rfl⟩

/-- Counterexample to claim C7 as stated: with a truthy record id and
no `AIRTABLE_API_KEY` the updater does raise the configuration error,
but no CRM client is constructed before the raise — the trace of the
call holds no outbound event at all. -/
theorem update_missing_key_no_client_constructed :
    (update_at_record (.str "rec1") "desc" none).2
      = .error ("Missing Airtable configuration. Please set AIRTABLE_API_KEY, "
                 ++ "AIRTABLE_BASE_ID, and AIRTABLE_TABLE_NAME in your .env file")
  ∧ (update_at_record (.str "rec1") "desc" none).1.filter isOutboundEff = [] :=
  ⟨rfl, rfl⟩

/-- Claim C7 as amended: with a truthy record id and an absent (or
empty) `AIRTABLE_API_KEY`, the Record Updater raises the configuration
error before constructing the CRM client, having only logged the
credential line. -/
theorem update_missing_key_raises (rid : JVal) (desc : String)
    (key : Option String) (h1 : truthy rid = true) (h2 : key.getD "" = "") :
    update_at_record rid desc key
      = ([.log ("api_key: " ++ optStr key ++ ", base_id: " ++ airtable_base_id
                  ++ ", table_name: " ++ airtable_table_name)],
         .error ("Missing Airtable configuration. Please set AIRTABLE_API_KEY, "
                  ++ "AIRTABLE_BASE_ID, and AIRTABLE_TABLE_NAME in your .env file")) := by
  unfold update_at_record
  simp [h1, h2]

/-- Witness for C7's amended theorem at a concrete truthy record id and
an absent credential. -/
theorem update_missing_key_raises_witness :
    truthy (JVal.str "rec1") = true ∧
    update_at_record (.str "rec1") "desc" none
      = ([.log ("api_key: None, base_id: app18YWzPlAFs2umJ"
                  ++ ", table_name: tblIkmDFlC91L9EHi")],
         .error ("Missing Airtable configuration. Please set AIRTABLE_API_KEY, "
                  ++ "AIRTABLE_BASE_ID, and AIRTABLE_TABLE_NAME in your .env file")) :=
  ⟨rfl, by simpa using update_missing_key_raises (.str "rec1") "desc" none rfl rfl⟩

/-- Claim C1: when the trigger payload lacks a usable LinkedIn URL
(missing or empty payload, missing `fields`, missing `LinkedIn` key,
or a falsy `LinkedIn` value) the flow returns normally and its trace
holds no outbound call — no profile fetch, no posts fetch, no LLM call
and no record update. -/
theorem flow_noop_without_linkedin (data : JVal) (env : FlowEnv) (w : FlowWorld)
    (h : payloadLacksLinkedin data) :
    (contact_enrichment data env w).2 = .ok () ∧
    ∀ e ∈ (contact_enrichment data env w).1, isOutboundEff e = false := by
  rcases h with rfl | ⟨kvs, rfl, hf⟩
  · refine ⟨rfl, ?_⟩
    intro e he
    simp [contact_enrichment, estep, dictGet, truthy, alookup] at he
    rcases he with rfl | rfl <;> rfl
  · cases kvs with
    | nil =>
      refine ⟨rfl, ?_⟩
      intro e he
      simp [contact_enrichment, estep, dictGet, truthy, alookup] at he
      rcases he with rfl | rfl <;> rfl
    | cons hd tl =>
      rcases hf with hnone | ⟨fkvs, hsome, hlink⟩
      · have hempty : alookup "LinkedIn" ([] : List (String × JVal)) = none := rfl
        constructor
        · simp [contact_enrichment, estep, dictGet, hnone, truthy, hempty]
        · intro e he
          simp [contact_enrichment, estep, dictGet, hnone, truthy, hempty] at he
          rcases he with rfl | rfl <;> rfl
      · rcases hlink with hlnone | ⟨v, hlsome, hlv⟩
        · constructor
          · simp [contact_enrichment, estep, dictGet, hsome, hlnone, truthy]
          · intro e he
            simp [contact_enrichment, estep, dictGet, hsome, hlnone, truthy] at he
            rcases he with rfl | rfl <;> rfl
        · have htd : truthy (JVal.obj (hd :: tl)) = true := rfl
          constructor
          · simp [contact_enrichment, estep, dictGet, hsome, hlsome, hlv, htd]
          · intro e he
            simp [contact_enrichment, estep, dictGet, hsome, hlsome, hlv, htd] at he
            rcases he with rfl | rfl <;> rfl

/-- Witness for C1 at a payload whose `LinkedIn` field is the empty
string. -/
theorem flow_noop_without_linkedin_witness :
    (contact_enrichment (.obj [("fields", .obj [("LinkedIn", .str "")])])
        scenarioEnv ⟨scenarioProfile, scenarioPosts, "", "", 0⟩).2 = .ok () ∧
    ∀ e ∈ (contact_enrichment (.obj [("fields", .obj [("LinkedIn", .str "")])])
        scenarioEnv ⟨scenarioProfile, scenarioPosts, "", "", 0⟩).1,
      isOutboundEff e = false :=
  flow_noop_without_linkedin _ _ _
    (Or.inr ⟨_, rfl, Or.inr ⟨_, rfl, Or.inr ⟨_, rfl, rfl⟩⟩⟩)

/-- Claim C2: on a posts list of dict items whose truthy `posted`
values all parse, the filter comprehension succeeds and returns exactly
the items whose `posted` is present, truthy and at least `now − 7 days`
(boundary inclusive), in input order, each projected to the two-field
object — the spec-side filter `specRecencyFilter`. -/
theorem recency_filter_correct (posts : List JVal) (nowSecs : Int)
    (h : ∀ item ∈ posts, ∃ kvs, item = .obj kvs ∧
          ∀ v, alookup "posted" kvs = some v → truthy v = true →
            ∃ s dt, v = .str s ∧ strptimeYmdHms s = .ok dt) :
    recentPostsOf posts nowSecs = .ok (specRecencyFilter posts nowSecs) := by
  induction posts with
  | nil => rfl
  | cons item rest ih =>
    have hrest := fun x hx => h x (List.mem_cons_of_mem _ hx)
    obtain ⟨kvs, rfl, hv⟩ := h _ (List.mem_cons_self _ _)
    have ih' := ih hrest
    cases hp : alookup "posted" kvs with
    | none =>
      simp [recentPostsOf, dictGet1, dictGet, hp, truthy, specRecencyFilter,
            List.filter_cons, specRecencyKeep, ih',
            except_bind_ok, except_bind_error, except_pure_eq]
    | some v =>
      cases htv : truthy v with
      | false =>
        cases v with
        | str s =>
          have hs : s = "" := by simpa [truthy] using htv
          subst hs
          simp [recentPostsOf, dictGet1, dictGet, hp, specRecencyFilter,
                List.filter_cons, specRecencyKeep, ih', truthy,
                except_bind_ok, except_bind_error, except_pure_eq]
        | null =>
          simp [recentPostsOf, dictGet1, dictGet, hp, specRecencyFilter,
                List.filter_cons, specRecencyKeep, ih', truthy,
                except_bind_ok, except_bind_error, except_pure_eq]
        | bool b =>
          simp [recentPostsOf, dictGet1, dictGet, hp, specRecencyFilter,
                List.filter_cons, specRecencyKeep, ih',
                show truthy (JVal.bool b) = false from htv,
                except_bind_ok, except_bind_error, except_pure_eq]
        | num n =>
          simp [recentPostsOf, dictGet1, dictGet, hp, specRecencyFilter,
                List.filter_cons, specRecencyKeep, ih',
                show truthy (JVal.num n) = false from htv,
                except_bind_ok, except_bind_error, except_pure_eq]
        | arr xs =>
          simp [recentPostsOf, dictGet1, dictGet, hp, specRecencyFilter,
                List.filter_cons, specRecencyKeep, ih',
                show truthy (JVal.arr xs) = false from htv,
                except_bind_ok, except_bind_error, except_pure_eq]
        | obj okvs =>
          simp [recentPostsOf, dictGet1, dictGet, hp, specRecencyFilter,
                List.filter_cons, specRecencyKeep, ih',
                show truthy (JVal.obj okvs) = false from htv,
                except_bind_ok, except_bind_error, except_pure_eq]
      | true =>
        obtain ⟨s, dt, rfl, hdt⟩ := hv v hp htv
        by_cases hge : dt.toSecs ≥ nowSecs - weekSeconds
        · have hle : nowSecs ≤ dt.toSecs + weekSeconds := by omega
          have hsne : ¬ s = "" := by simpa [truthy] using htv
          simp [recentPostsOf, dictGet1, dictGet, hp, htv, hdt, hge, hle, hsne,
                specRecencyFilter, List.filter_cons, specRecencyKeep,
                specProject, ih',
                except_bind_ok, except_bind_error, except_pure_eq]
        · have hnle : ¬ nowSecs ≤ dt.toSecs + weekSeconds := by omega
          simp [recentPostsOf, dictGet1, dictGet, hp, htv, hdt, hge, hnle,
                specRecencyFilter, List.filter_cons, specRecencyKeep, ih',
                except_bind_ok, except_bind_error, except_pure_eq]

/-- Witness for C2 at the 6/7/8-day boundary scenario: the 6-day and
exactly-7-day posts are kept in order and projected, the 8-day,
`posted`-less and empty-`posted` items are dropped. -/
theorem recency_filter_correct_witness :
    recentPostsOf boundaryPosts boundaryNow
      = .ok (specRecencyFilter boundaryPosts boundaryNow) ∧
    specRecencyFilter boundaryPosts boundaryNow
      = [.obj [("article_title", .null), ("text", .str "6d")],
         .obj [("article_title", .str "T"), ("text", .str "7d")]] := by
  constructor
  · refine recency_filter_correct boundaryPosts boundaryNow ?_
    intro item hitem
    simp [boundaryPosts] at hitem
    rcases hitem with rfl | rfl | rfl | rfl | rfl
    · exact ⟨_, rfl, by
        intro v hv htv
        simp [alookup] at hv
        subst hv
        exact ⟨_, ⟨2024, 6, 8, 12, 0, 0⟩, rfl, rfl⟩⟩
    · exact ⟨_, rfl, by
        intro v hv htv
        simp [alookup] at hv
        subst hv
        exact ⟨_, ⟨2024, 6, 7, 12, 0, 0⟩, rfl, rfl⟩⟩
    · exact ⟨_, rfl, by
        intro v hv htv
        simp [alookup] at hv
        subst hv
        exact ⟨_, ⟨2024, 6, 6, 12, 0, 0⟩, rfl, rfl⟩⟩
    · exact ⟨_, rfl, by intro v hv htv; simp [alookup] at hv⟩
    · exact ⟨_, rfl, by
        intro v hv htv
        simp [alookup] at hv
        subst hv
        cases htv⟩
  · rfl

/-- When the tail of the comprehension raises, the whole comprehension
raises, whatever the head item contributes. -/
theorem recentPostsOf_error_of_tail (item : JVal) (rest : List JVal) (nowSecs : Int)
    (h : ∃ e, recentPostsOf rest nowSecs = .error e) :
    ∃ e, recentPostsOf (item :: rest) nowSecs = .error e := by
  obtain ⟨e, he⟩ := h
  cases hpg : dictGet1 item "posted" with
  | error e2 =>
    exact ⟨e2, by simp [recentPostsOf, hpg, except_bind_error]⟩
  | ok posted =>
    cases htv : truthy posted with
    | false =>
      exact ⟨e, by simp [recentPostsOf, hpg, htv, he, except_bind_ok]⟩
    | true =>
      cases posted with
      | str s =>
        cases hdt : strptimeYmdHms s with
        | error e2 =>
          exact ⟨e2, by simp [recentPostsOf, hpg, htv, hdt,
            except_bind_ok, except_bind_error]⟩
        | ok dt =>
          by_cases hge : nowSecs ≤ dt.toSecs + weekSeconds
          · cases hta : dictGet1 item "article_title" with
            | error e3 =>
              exact ⟨e3, by simp [recentPostsOf, hpg, htv, hdt, hge, hta,
                except_bind_ok, except_bind_error]⟩
            | ok tv =>
              cases htx : dictGet1 item "text" with
              | error e4 =>
                exact ⟨e4, by simp [recentPostsOf, hpg, htv, hdt, hge, hta, htx,
                  except_bind_ok, except_bind_error]⟩
              | ok xv =>
                exact ⟨e, by simp [recentPostsOf, hpg, htv, hdt, hge, hta, htx, he,
                  except_bind_ok, except_bind_error]⟩
          · exact ⟨e, by simp [recentPostsOf, hpg, htv, hdt, hge, he,
              except_bind_ok, except_bind_error]⟩
      | null =>
        exact ⟨"TypeError: strptime() argument 1 must be str",
          by simp [recentPostsOf, hpg, htv, except_bind_ok]⟩
      | bool b =>
        exact ⟨"TypeError: strptime() argument 1 must be str",
          by simp [recentPostsOf, hpg, htv, except_bind_ok]⟩
      | num n =>
        exact ⟨"TypeError: strptime() argument 1 must be str",
          by simp [recentPostsOf, hpg, htv, except_bind_ok]⟩
      | arr xs =>
        exact ⟨"TypeError: strptime() argument 1 must be str",
          by simp [recentPostsOf, hpg, htv, except_bind_ok]⟩
      | obj okvs =>
        exact ⟨"TypeError: strptime() argument 1 must be str",
          by simp [recentPostsOf, hpg, htv, except_bind_ok]⟩

/-- Claim C9: a posts list containing an item whose `posted` value is a
non-empty string that `strptime` rejects makes the filter comprehension
raise rather than drop the item. -/
theorem recency_filter_raises_on_malformed (posts : List JVal) (nowSecs : Int)
    (hbad : ∃ item ∈ posts, ∃ kvs s emsg, item = .obj kvs ∧
        alookup "posted" kvs = some (.str s) ∧ s ≠ "" ∧
        strptimeYmdHms s = .error emsg) :
    ∃ e, recentPostsOf posts nowSecs = .error e := by
  induction posts with
  | nil => simp at hbad
  | cons item rest ih =>
    obtain ⟨bad, hmem, kvs, s, emsg, hbadeq, hp, hs, herr⟩ := hbad
    rcases List.mem_cons.mp hmem with rfl | hmem'
    · subst hbadeq
      refine ⟨emsg, ?_⟩
      simp [recentPostsOf, dictGet1, dictGet, hp, herr,
            show truthy (JVal.str s) = true from by simpa [truthy] using hs,
            except_bind_ok, except_bind_error]
    · exact recentPostsOf_error_of_tail _ _ _
        (ih ⟨bad, hmem', kvs, s, emsg, hbadeq, hp, hs, herr⟩)

/-- Witness for C9: a list holding one well-formed recent post and one
post whose `posted` value is the unparseable string `"not a date"`. -/
theorem recency_filter_raises_on_malformed_witness :
    ∃ e, recentPostsOf
        [.obj [("posted", .str "2024-06-08 12:00:00"), ("text", .str "fine")],
         .obj [("posted", .str "not a date"), ("text", .str "broken")]]
        boundaryNow = .error e :=
  recency_filter_raises_on_malformed _ _
    ⟨_, List.mem_cons_of_mem _ (List.mem_cons_self _ _), _, "not a date", _,
     rfl, rfl, by decide, rfl⟩

/-- Formatting one experience entry built by `mkExperience`. -/
theorem fmt_mkExperience (c t d ds : String) :
    fmtExperience (mkExperience c t d ds) = .ok (expPiece (c, t, d, ds)) := rfl

/-- Formatting a whole list of experience entries built by
`mkExperience`. -/
theorem fmtExperiences_mkExperience (exps : List (String × String × String × String)) :
    fmtExperiences (exps.map fun e => mkExperience e.1 e.2.1 e.2.2.1 e.2.2.2)
      = .ok (exps.map expPiece) := by
  induction exps with
  | nil => rfl
  | cons e es ih =>
    simp [fmtExperiences, ih, fmt_mkExperience, except_bind_ok, except_pure_eq]

/-- The history block of a list of experience entries built by
`mkExperience` is their joined formatted text. -/
theorem historyOf_mkExperience (exps : List (String × String × String × String)) :
    historyOf (exps.map fun e => mkExperience e.1 e.2.1 e.2.2.1 e.2.2.2)
      = .ok (expBlock exps) := by
  simp [historyOf, fmtExperiences_mkExperience, expBlock,
        except_bind_ok, except_pure_eq]

/-- Counterexample to claim C4 as stated: in the scenario-B run the
Record Updater is invoked with the flow's f-string text, which carries
the surrounding triple-quoted-literal indentation and so differs from
the bare `bullets ++ "\n\n" ++ experience_block`. -/
theorem update_text_counterexample :
    ((contact_enrichment scenarioPayload scenarioEnv
        ⟨scenarioProfile, scenarioPosts, toUpdateTrueResp, "B", 0⟩).1.filterMap
          updateEvent?)
      = [("rec1", "Description", "\n        B\n\n        \n        ")]
  ∧ "\n        B\n\n        \n        " ≠ "B" ++ "\n\n" ++ "" := ⟨rfl, by decide⟩

/-- Claim C4 as amended: when the Change Detector answers true and the
payload's record id is truthy, the CRM write happens exactly once, with
the trigger's record id and the text
`"\n        " ++ bullets ++ "\n\n        " ++ experience_block ++ "\n        "`
(the f-string literal's own newlines and 8-space indentation included);
the experience block is the joined per-entry format, and is empty when
the `experiences` list is empty or the key is absent. -/
theorem update_text_and_single_write (gen rid : String) (hrid : rid ≠ "")
    (exps : List (String × String × String × String)) :
    ((contact_enrichment
        (.obj [("id", .str rid),
               ("fields", .obj [("LinkedIn", .str "https://www.linkedin.com/in/ab/"),
                                ("Title", .str "Old")])])
        scenarioEnv
        ⟨.obj [("data", .obj [("about", .str "About me"), ("headline", .str "New role"),
                ("experiences", .arr (exps.map fun e =>
                    mkExperience e.1 e.2.1 e.2.2.1 e.2.2.2))])],
         scenarioPosts, toUpdateTrueResp, gen, 0⟩).1.filterMap updateEvent?)
      = [(rid, "Description",
          "\n        " ++ gen ++ "\n\n        " ++ expBlock exps ++ "\n        ")]
  ∧ ((contact_enrichment
        (.obj [("id", .str rid),
               ("fields", .obj [("LinkedIn", .str "https://www.linkedin.com/in/ab/"),
                                ("Title", .str "Old")])])
        scenarioEnv
        ⟨scenarioProfile, scenarioPosts, toUpdateTrueResp, gen, 0⟩).1.filterMap
          updateEvent?)
      = [(rid, "Description", "\n        " ++ gen ++ "\n\n        " ++ "" ++ "\n        ")] := by
  have hq : pyQuote "https://www.linkedin.com/in/ab/" = "https://www.linkedin.com/in/ab/" := rfl
  have hrp : recentPostsOf [] (0 : Int) = .ok [] := rfl
  have hx : extract_json_from_response toUpdateTrueResp
      = .ok (.obj [("toUpdate", .bool true), ("reason", .str "new role")]) := rfl
  have htr : truthy (JVal.str rid) = true := by simp [truthy, hrid]
  constructor
  · cases exps with
    | nil =>
      simp [contact_enrichment, scenarioEnv, scenarioPosts,
            estep, dictGet, dictGet1, alookup, truthy, asList, hq, hrp, hx, htr, hrid,
            prompt_profil_comparison, pyJsonDumps, dumpsList, dumpsKvs, jsonEscapeChar,
            does_profile_need_update, listItem, dictItem, generate_text, pyStr,
            update_at_record, optStr, updateEvent?, expBlock,
            show String.join ([] : List String) = "" from rfl,
            except_bind_ok, except_bind_error, except_pure_eq]
    | cons e es =>
      have hh : historyOf (mkExperience e.1 e.2.1 e.2.2.1 e.2.2.2 ::
            (es.map fun x => mkExperience x.1 x.2.1 x.2.2.1 x.2.2.2))
          = .ok (expBlock (e :: es)) := historyOf_mkExperience (e :: es)
      simp [contact_enrichment, scenarioEnv, scenarioPosts,
            estep, dictGet, dictGet1, alookup, truthy, asList, hq, hrp, hx, htr, hrid, hh,
            prompt_profil_comparison, pyJsonDumps, dumpsList, dumpsKvs, jsonEscapeChar,
            does_profile_need_update, listItem, dictItem, generate_text, pyStr,
            update_at_record, optStr, updateEvent?,
            except_bind_ok, except_bind_error, except_pure_eq]
  · simp [contact_enrichment, scenarioEnv, scenarioProfile, scenarioPosts,
          estep, dictGet, dictGet1, alookup, truthy, asList, hq, hrp, hx, htr, hrid,
          prompt_profil_comparison, pyJsonDumps, dumpsList, dumpsKvs, jsonEscapeChar,
          does_profile_need_update, listItem, dictItem, generate_text, pyStr,
          update_at_record, optStr, updateEvent?,
          except_bind_ok, except_bind_error, except_pure_eq]

/-- Witness for C4's amended theorem at bullets `"B"`, record id
`"rec1"` and one concrete experience entry. -/
theorem update_text_and_single_write_witness :
    ((contact_enrichment
        (.obj [("id", .str "rec1"),
               ("fields", .obj [("LinkedIn", .str "https://www.linkedin.com/in/ab/"),
                                ("Title", .str "Old")])])
        scenarioEnv
        ⟨.obj [("data", .obj [("about", .str "About me"), ("headline", .str "New role"),
                ("experiences", .arr ([("C", "T", "2020", "D")].map fun e =>
                    mkExperience e.1 e.2.1 e.2.2.1 e.2.2.2))])],
         scenarioPosts, toUpdateTrueResp, "B", 0⟩).1.filterMap updateEvent?)
      = [("rec1", "Description",
          "\n        " ++ "B" ++ "\n\n        "
            ++ expBlock [("C", "T", "2020", "D")] ++ "\n        ")] :=
  (update_text_and_single_write "B" "rec1" (by decide) [("C", "T", "2020", "D")]).1

/-- Claim C8: with the Change Detector answering true and the fetched
profile response lacking a `data` key, the flow raises the
`AttributeError` of `None.get` at the description-generation step —
after the one comparison LLM call, with no CRM write; a profile whose
`data` key is present but `None` raises the same `AttributeError`
(already at the comparison-prompt step). -/
theorem missing_profile_data_raises (kvs : List (String × JVal))
    (hdata : alookup "data" kvs = none) :
    ((contact_enrichment scenarioPayload scenarioEnv
        ⟨.obj kvs, scenarioPosts, toUpdateTrueResp, "B", 0⟩).2
      = .error "AttributeError: 'NoneType' object has no attribute 'get'")
  ∧ ((contact_enrichment scenarioPayload scenarioEnv
        ⟨.obj kvs, scenarioPosts, toUpdateTrueResp, "B", 0⟩).1.countP isLlmEff = 1)
  ∧ ((contact_enrichment scenarioPayload scenarioEnv
        ⟨.obj kvs, scenarioPosts, toUpdateTrueResp, "B", 0⟩).1.filterMap updateEvent? = [])
  ∧ ((contact_enrichment scenarioPayload scenarioEnv
        ⟨.obj [("data", .null)], scenarioPosts, toUpdateTrueResp, "B", 0⟩).2
      = .error "AttributeError: 'NoneType' object has no attribute 'get'") := by
  have hq : pyQuote "https://www.linkedin.com/in/ab/" = "https://www.linkedin.com/in/ab/" := rfl
  have hrp : recentPostsOf [] (0 : Int) = .ok [] := rfl
  have hx : extract_json_from_response toUpdateTrueResp
      = .ok (.obj [("toUpdate", .bool true), ("reason", .str "new role")]) := rfl
  refine ⟨?_, ?_, ?_, ?_⟩ <;>
    simp [contact_enrichment, scenarioPayload, scenarioEnv, scenarioPosts,
          estep, dictGet, dictGet1, alookup, truthy, asList, hq, hrp, hx, hdata,
          prompt_profil_comparison, pyJsonDumps, dumpsList, dumpsKvs, jsonEscapeChar,
          does_profile_need_update, listItem, dictItem, generate_text, pyStr,
          isLlmEff, updateEvent?,
          except_bind_ok, except_bind_error, except_pure_eq]

/-- Witness for C8 at a concrete profile response with no `data` key. -/
theorem missing_profile_data_raises_witness :
    ((contact_enrichment scenarioPayload scenarioEnv
        ⟨.obj [("message", .str "ok")], scenarioPosts, toUpdateTrueResp, "B", 0⟩).2
      = .error "AttributeError: 'NoneType' object has no attribute 'get'")
  ∧ ((contact_enrichment scenarioPayload scenarioEnv
        ⟨.obj [("message", .str "ok")], scenarioPosts, toUpdateTrueResp, "B", 0⟩).1.countP
          isLlmEff = 1) :=
  ⟨(missing_profile_data_raises [("message", .str "ok")] rfl).1,
   (missing_profile_data_raises [("message", .str "ok")] rfl).2.1⟩

/-- Claim C10: when the LLM verdict parses to a JSON object lacking a
`toUpdate` key, `does_profile_need_update` returns `None` without
raising, and the flow treats the verdict as falsy: the run ends
normally after the single comparison LLM call, with no
description-generation call and no CRM write. -/
theorem verdict_missing_toUpdate_skips (resp : String) (kvs : List (String × JVal))
    (hparse : extract_json_from_response resp = .ok (.obj kvs))
    (hmiss : alookup "toUpdate" kvs = none) :
    ((does_profile_need_update
        [.obj [("role", .str "system"), ("content", .str comparisonSystemPrompt)],
         .obj [("role", .str "user"), ("content", .str "U")]]
        (some "ork") resp).2 = .ok JVal.null)
  ∧ ((contact_enrichment scenarioPayload scenarioEnv
        ⟨scenarioProfile, scenarioPosts, resp, "B", 0⟩).2 = .ok ())
  ∧ ((contact_enrichment scenarioPayload scenarioEnv
        ⟨scenarioProfile, scenarioPosts, resp, "B", 0⟩).1.countP isLlmEff = 1)
  ∧ ((contact_enrichment scenarioPayload scenarioEnv
        ⟨scenarioProfile, scenarioPosts, resp, "B", 0⟩).1.filterMap updateEvent? = []) := by
  have hq : pyQuote "https://www.linkedin.com/in/ab/" = "https://www.linkedin.com/in/ab/" := rfl
  have hrp : recentPostsOf [] (0 : Int) = .ok [] := rfl
  have hpc : prompt_profil_comparison
      (JVal.obj [("id", JVal.str "rec1"),
                 ("fields", JVal.obj [("LinkedIn", JVal.str "https://www.linkedin.com/in/ab/"),
                                      ("Title", JVal.str "Old")])])
      (JVal.obj [("data", JVal.obj [("about", JVal.str "About me"),
                                    ("headline", JVal.str "New role")]),
                 ("message", JVal.str "ok")])
      []
      = .ok [.obj [("role", .str "system"), ("content", .str comparisonSystemPrompt)],
             .obj [("role", .str "user"),
                   ("content", .str ("\n    Old profile: \x7b\"name\": \"\", \"desc\": \"\", \"company\": [], \"title\": \"Old\"\x7d\n    Current profile: \x7b\"name\": \"\", \"desc\": \"About me\", \"company\": \"\", \"title\": \"New role\", \"recentPosts\": []\x7d\n    "))]] := rfl
  refine ⟨?_, ?_, ?_, ?_⟩ <;>
    simp [contact_enrichment, scenarioPayload, scenarioEnv, scenarioProfile, scenarioPosts,
          estep, dictGet, dictGet1, alookup, truthy, asList, hq, hrp, hpc,
          does_profile_need_update, listItem, dictItem, generate_text, pyStr,
          hparse, hmiss, isLlmEff, updateEvent?,
          except_bind_ok, except_bind_error, except_pure_eq]

/-- Witness for C10 at the concrete verdict `{"reason": "x"}`. -/
theorem verdict_missing_toUpdate_skips_witness :
    ((contact_enrichment scenarioPayload scenarioEnv
        ⟨scenarioProfile, scenarioPosts, "\x7b\"reason\": \"x\"\x7d", "B", 0⟩).2 = .ok ())
  ∧ ((contact_enrichment scenarioPayload scenarioEnv
        ⟨scenarioProfile, scenarioPosts, "\x7b\"reason\": \"x\"\x7d", "B", 0⟩).1.filterMap
          updateEvent? = []) :=
  ⟨(verdict_missing_toUpdate_skips "\x7b\"reason\": \"x\"\x7d" [("reason", .str "x")]
      rfl rfl).2.1,
   (verdict_missing_toUpdate_skips "\x7b\"reason\": \"x\"\x7d" [("reason", .str "x")]
      rfl rfl).2.2.2⟩

end ContactEnrichment
